import Mathlib

/-!
Shallow embedding of the jugaad-data live-data session client
(`src/jugaad_data/nse/live.py`) and of the bulk bhavcopy download loop
(`src/jugaad_data/cli.py`), together with theorems settling the claims of
the specification against this embedding.

The HTTP world is modelled as an oracle `http : Request → HttpResult`
supplied to each operation; the operation returns both its Python-level
outcome (`Except LiveError Json`, mirroring the exceptions the Python code
can raise) and the list of outbound requests it issued, so that claims
about URLs, query parameters, timeouts and "no network call" are statable.
-/

namespace JugaadData

/-- A JSON value, the result of `response.json()`.  The claims never inspect
the shape of a decoded value, only whether decoding succeeded, but we keep
the full structure so that `get` returns the decoded value as-is. -/
inductive Json where
  | null
  | bool (b : Bool)
  | num (n : Int)
  | str (s : String)
  | arr (elems : List Json)
  | obj (fields : List (String × Json))

/-- An outbound HTTP GET as the `requests` library would issue it:
the URL, the query parameters (`params=` keyword), the session headers in
effect, and the timeout passed to the call (`none` when no `timeout=`
keyword is given, which makes `requests` wait indefinitely). -/
structure Request where
  url : String
  params : List (String × String)
  headers : List (String × String)
  timeout : Option Nat
deriving DecidableEq, Repr

/-- Outcome of one HTTP exchange: either a network-level failure (a
`requests` exception such as `ConnectionError`) or a response carrying an
HTTP status code and a body; the body is `some j` when it parses as JSON
and `none` when `response.json()` would raise a decode error. -/
inductive HttpResult where
  | netErr
  | resp (status : Nat) (body : Option Json)

/-- The Python exceptions the live client can raise, named after the
specification's taxonomy: `unknownRoute` is the `KeyError` from
`self._routes[route]`, `requestFailed` the network-level `requests`
exception, `decodeError` the JSON decode failure from `r.json()`, and
`invalidArguments` the `Exception` raised by `corporate_announcements`. -/
inductive LiveError where
  | unknownRoute
  | requestFailed
  | decodeError
  | invalidArguments
deriving DecidableEq, Repr

/-- Session state: the headers installed on the `requests.Session`. -/
structure SessionState where
  headers : List (String × String)
deriving DecidableEq, Repr

/-- Python `dict` assignment `d[k] = v`: replace the value in place when the
key is present, append the pair otherwise. -/
def dictSet (d : List (String × String)) (k v : String) : List (String × String) :=
  if d.any (fun p => p.1 == k) then
    d.map (fun p => if p.1 == k then (k, v) else p)
  else
    d ++ [(k, v)]

namespace NSELive

/-- `NSELive.time_out = 5` (live.py line 8).  In the source this class
attribute is consumed by the `live_cache` decorator as the memoization
window; it is never passed to any HTTP call. -/
def time_out : Nat := 5

/-- `NSELive.base_url` (live.py line 9). -/
def base_url : String := "https://www.nseindia.com/api"

/-- `NSELive.page_url` (live.py line 10). -/
def page_url : String := "https://www.nseindia.com/get-quotes/equity?symbol=LT"

/-- `NSELive._routes` (live.py lines 11-27): the fixed route table, an
insertion-ordered mapping from logical endpoint name to URL path suffix. -/
def _routes : List (String × String) :=
  [ ("stock_meta", "/equity-meta-info"),
    ("stock_quote", "/quote-equity"),
    ("stock_derivative_quote", "/quote-derivative"),
    ("market_status", "/marketStatus"),
    ("chart_data", "/chart-databyindex"),
    ("market_turnover", "/market-turnover"),
    ("equity_derivative_turnover", "/equity-stock"),
    ("all_indices", "/allIndices"),
    ("live_index", "/equity-stockIndices"),
    ("index_option_chain", "/option-chain-indices"),
    ("equity_option_chain", "/option-chain-equities"),
    ("currency_option_chain", "/option-chain-currency"),
    ("pre_open_market", "/market-data-pre-open"),
    ("holiday_list", "/holiday-master?type=trading"),
    ("corporate_announcements", "/corporate-announcements") ]

/-- The browser-identifying header bundle `h` installed by `__init__`
(live.py lines 31-46). -/
def defaultHeaders : List (String × String) :=
  [ ("accept", "text/html,application/xhtml+xml,application/xml;q=0.9,image/avif,image/webp,image/apng,*/*;q=0.8,application/signed-exchange;v=b3;q=0.7"),
    ("accept-language", "en-GB,en-US;q=0.9,en;q=0.8"),
    ("cache-control", "no-cache"),
    ("pragma", "no-cache"),
    ("priority", "u=0, i"),
    ("sec-ch-ua", "\"Google Chrome\";v=\"129\", \"Not=A?Brand\";v=\"8\", \"Chromium\";v=\"129\""),
    ("sec-ch-ua-mobile", "?0"),
    ("sec-ch-ua-platform", "\"macOS\""),
    ("sec-fetch-dest", "document"),
    ("sec-fetch-mode", "navigate"),
    ("sec-fetch-site", "none"),
    ("sec-fetch-user", "?1"),
    ("upgrade-insecure-requests", "1"),
    ("User-Agent", "Mozilla/5.0 (X11; Ubuntu; Linux x86_64; rv:80.0) Gecko/20100101 Firefox/80.0") ]

/-- The landing-page GET issued by `__init__` (live.py line 48):
`self.s.get(self.page_url)` — no query parameters, the session's default
headers, and no `timeout=` keyword. -/
def landingRequest : Request :=
  ⟨page_url, [], defaultHeaders, none⟩

/-- `NSELive.__init__` (live.py lines 29-48): create the session, install
the browser headers, then GET the landing page once.  A network-level
failure propagates out of the constructor; any HTTP response — whatever its
status — completes construction (the source never inspects the status).
Returns the constructed session (or the propagated error) together with the
list of requests issued. -/
def init (http : Request → HttpResult) :
    Except LiveError SessionState × List Request :=
  match http landingRequest with
  | .netErr => (.error .requestFailed, [landingRequest])
  | .resp _status _body => (.ok ⟨defaultHeaders⟩, [landingRequest])

/-- `response.json()` after `self.s.get(...)` (live.py lines 52-53): a
network-level failure raises the `requests` exception; otherwise the body
is parsed as JSON, raising a decode error when it is not valid JSON.  The
HTTP status is never inspected. -/
def handleResponse : HttpResult → Except LiveError Json
  | .netErr => .error .requestFailed
  | .resp _status body =>
    match body with
    | none => .error .decodeError
    | some j => .ok j

/-- `NSELive.get` (live.py lines 50-53):
`url = self.base_url + self._routes[route]` — a missing route raises
`KeyError` (`unknownRoute`) before any request is issued — then
`r = self.s.get(url, params=payload)` (no `timeout=` keyword) and
`return r.json()`. -/
def get (s : SessionState) (http : Request → HttpResult) (route : String)
    (payload : List (String × String)) : Except LiveError Json × List Request :=
  match _routes.lookup route with
  | none => (.error .unknownRoute, [])
  | some path =>
    let req : Request := ⟨base_url ++ path, payload, s.headers, none⟩
    (handleResponse (http req), [req])

/-- `NSELive.chart_data` (live.py lines 74-80): build
`data = {"index": symbol + "EQN"}`; when `indices` is true overwrite
`data["index"] = symbol` and set `data["indices"] = "true"`; then
`self.get("chart_data", data)`.  (The `live_cache` decorator is modelled
separately; this is the underlying method body.) -/
def chart_data (s : SessionState) (http : Request → HttpResult)
    (symbol : String) (indices : Bool) : Except LiveError Json × List Request :=
  let data := [("index", symbol ++ "EQN")]
  let data :=
    if indices then dictSet (dictSet data "index" symbol) "indices" "true"
    else data
  get s http "chart_data" data

/-- `NSELive.tick_data` (live.py lines 82-84): a pure delegation,
`return self.chart_data(symbol, indices)`. -/
def tick_data (s : SessionState) (http : Request → HttpResult)
    (symbol : String) (indices : Bool) : Except LiveError Json × List Request :=
  chart_data s http symbol indices

end NSELive

/-- A calendar date, as carried by Python `datetime.date` values.  Date
objects are always truthy in Python, so "supplied" means `some _`. -/
structure Date where
  year : Nat
  month : Nat
  day : Nat
deriving DecidableEq, Repr

/-- Zero-pad a number to two digits, as `%d` and `%m` do in `strftime`. -/
def pad2 (n : Nat) : String :=
  if n < 10 then "0" ++ toString n else toString n

/-- Zero-pad a number to four digits, as `%Y` does in `strftime`. -/
def pad4 (n : Nat) : String :=
  if n < 10 then "000" ++ toString n
  else if n < 100 then "00" ++ toString n
  else if n < 1000 then "0" ++ toString n
  else toString n

/-- `date.strftime("%d-%m-%Y")`: format a date as `dd-mm-yyyy`. -/
def Date.strftimeDMY (d : Date) : String :=
  pad2 d.day ++ "-" ++ pad2 d.month ++ "-" ++ pad4 d.year

/-- Python truthiness of an optional string argument: `None` and the empty
string are falsy, every other string is truthy. -/
def truthyStr : Option String → Bool
  | none => false
  | some s => s ≠ ""

namespace NSELive

/-- `NSELive.corporate_announcements` (live.py lines 131-149):
`payload = {"index": segment}`; when both dates are supplied add
`from_date`/`to_date` formatted as `%d-%m-%Y`; when exactly one is supplied
raise (`invalidArguments`) before any request; then `if symbol:` add it;
finally `self.get("corporate_announcements", payload)`. -/
def corporate_announcements (s : SessionState) (http : Request → HttpResult)
    (segment : String) (from_date to_date : Option Date) (symbol : Option String) :
    Except LiveError Json × List Request :=
  let payload := [("index", segment)]
  match from_date, to_date with
  | some f, some t =>
    let payload := dictSet (dictSet payload "from_date" f.strftimeDMY) "to_date" t.strftimeDMY
    let payload :=
      if truthyStr symbol then dictSet payload "symbol" (symbol.getD "") else payload
    get s http "corporate_announcements" payload
  | none, none =>
    let payload :=
      if truthyStr symbol then dictSet payload "symbol" (symbol.getD "") else payload
    get s http "corporate_announcements" payload
  | _, _ => (.error .invalidArguments, [])

end NSELive

/-- A time-stamped memoization cache, keyed by the wrapped method's identity
and argument tuple (here an abstract key type `α`): each entry holds the
last computed result and the time it was produced. -/
def CacheState (α β : Type) : Type := List (α × β × Nat)

/-- Look up the entry stored for a key, returning the cached value and its
timestamp. -/
def cacheFind {α β : Type} [DecidableEq α] : CacheState α β → α → Option (β × Nat)
  | [], _ => none
  | (k, v, t) :: rest, key => if k = key then some (v, t) else cacheFind rest key

/-- Store a result under a key at a timestamp; the new entry shadows any
older entry for the same key (entries are overwritten, never evicted). -/
def cacheStore {α β : Type} [DecidableEq α] (c : CacheState α β) (key : α) (v : β)
    (t : Nat) : CacheState α β :=
  (key, v, t) :: c

/-- Modelled from the spec: the `live_cache` decorator from
`jugaad_data/util.py`, which is imported by `live.py` but whose source is
not in the repository snapshot.  Per the specification: compute a cache key
from the method identity and argument values; if a cached entry exists and
its age is below the configured time-out, return the cached result without
invoking upstream; otherwise invoke the underlying method, store the result
with the current timestamp, and return it.  The last component counts the
upstream invocations this call performed (0 or 1). -/
def cachedCall {α β : Type} [DecidableEq α] (upstream : α → β) (timeOut now : Nat)
    (cache : CacheState α β) (key : α) : β × CacheState α β × Nat :=
  match cacheFind cache key with
  | some (v, t) =>
    if now - t < timeOut then (v, cache, 0)
    else
      let v' := upstream key
      (v', cacheStore cache key v' now, 1)
  | none =>
    let v := upstream key
    (v, cacheStore cache key v now, 1)

/-- Outcome of one `nse.bhavcopy_save(dt, path)` call as seen by the cli
loop: success, a `requests.exceptions.ReadTimeout`, or any other exception
(represented by a network-level connection error). -/
inductive DlError where
  | readTimeout
  | connectionError
deriving DecidableEq, Repr

/-- The bulk date-range branch of the `bhavcopy` cli command (cli.py lines
70-81): for each date in the range, attempt the download; a
`ReadTimeout` appends the date to `failed_downloads` and the loop
continues; any other exception propagates and aborts the loop.  `.ok l`
returns the final `failed_downloads` list, which the command then reports
to the user. -/
def downloadLoop (save : Date → Except DlError Unit) : List Date → Except DlError (List Date)
  | [] => .ok []
  | d :: rest =>
    match save d with
    | .ok _ => downloadLoop save rest
    | .error .readTimeout =>
      match downloadLoop save rest with
      | .ok failed => .ok (d :: failed)
      | .error e => .error e
    | .error .connectionError => .error .connectionError

/-- Claim C7: for every symbol and indices flag, `tick_data` and
`chart_data` produce identical outgoing requests and return the same
result — `tick_data` is a pure delegation to `chart_data`. -/
theorem tick_data_delegates_to_chart_data (s : SessionState)
    (http : Request → HttpResult) (symbol : String) (indices : Bool) :
    NSELive.tick_data s http symbol indices = NSELive.chart_data s http symbol indices :=
  rfl

/-- Claim C10: `chart_data` with `indices = false` sends the single query
parameter `index = symbol ++ "EQN"` and no `indices` parameter, while
`indices = true` sends `index = symbol` unchanged together with
`indices = "true"`. -/
theorem chart_data_query_parameters (s : SessionState)
    (http : Request → HttpResult) (symbol : String) :
    (NSELive.chart_data s http symbol false).2.map Request.params
      = [[("index", symbol ++ "EQN")]] ∧
    (NSELive.chart_data s http symbol true).2.map Request.params
      = [[("index", symbol), ("indices", "true")]] :=
  ⟨rfl, rfl⟩

/-- Claim C5: for every route name present in the route table, `get` issues
its request against the URL `base_url ++ table[route]`. -/
theorem get_url_concatenation (s : SessionState) (http : Request → HttpResult)
    (route path : String) (payload : List (String × String))
    (h : NSELive._routes.lookup route = some path) :
    (NSELive.get s http route payload).2.map Request.url
      = [NSELive.base_url ++ path] := by
  simp [NSELive.get, h]

/-- Witness for C5 at the `stock_quote` route. -/
theorem get_url_concatenation_witness :
    NSELive._routes.lookup "stock_quote" = some "/quote-equity" ∧
    (NSELive.get ⟨NSELive.defaultHeaders⟩ (fun _ => HttpResult.netErr)
        "stock_quote" []).2.map Request.url
      = [NSELive.base_url ++ "/quote-equity"] :=
  ⟨rfl, get_url_concatenation ⟨NSELive.defaultHeaders⟩ (fun _ => HttpResult.netErr)
    "stock_quote" "/quote-equity" [] rfl⟩

/-- Claim C6: for every route name absent from the route table, `get` fails
with `unknownRoute` (the `KeyError` from the table lookup) and issues no
network request. -/
theorem get_unknown_route_no_request (s : SessionState)
    (http : Request → HttpResult) (route : String) (payload : List (String × String))
    (h : NSELive._routes.lookup route = none) :
    NSELive.get s http route payload = (.error .unknownRoute, []) := by
  simp [NSELive.get, h]

/-- Witness for C6 at a route name not in the table. -/
theorem get_unknown_route_no_request_witness :
    NSELive._routes.lookup "bogus_route" = none ∧
    NSELive.get ⟨NSELive.defaultHeaders⟩ (fun _ => HttpResult.netErr) "bogus_route" []
      = (.error .unknownRoute, []) :=
  ⟨rfl, get_unknown_route_no_request ⟨NSELive.defaultHeaders⟩
    (fun _ => HttpResult.netErr) "bogus_route" [] rfl⟩

/-- Claim C3: for the corporate-announcements query, supplying exactly one
of `from_date`/`to_date` fails with `invalidArguments` before any request
is issued; supplying neither issues the request with no date filter among
its query parameters; supplying both sends both dates formatted as
`dd-mm-yyyy` strings. -/
theorem corporate_announcements_date_rules (s : SessionState)
    (http : Request → HttpResult) (segment : String) (symbol : Option String)
    (f t : Date) :
    NSELive.corporate_announcements s http segment (some f) none symbol
      = (.error .invalidArguments, []) ∧
    NSELive.corporate_announcements s http segment none (some t) symbol
      = (.error .invalidArguments, []) ∧
    (NSELive.corporate_announcements s http segment none none symbol).2.map
        (fun r => (r.params.lookup "from_date", r.params.lookup "to_date"))
      = [(none, none)] ∧
    (NSELive.corporate_announcements s http segment (some f) (some t) symbol).2.map
        (fun r => (r.params.lookup "from_date", r.params.lookup "to_date"))
      = [(some f.strftimeDMY, some t.strftimeDMY)] := by
  refine ⟨rfl, rfl, ?_, ?_⟩ <;>
  · rcases symbol with _ | sym
    · rfl
    · by_cases hs : sym = ""
      · subst hs; rfl
      · simp [NSELive.corporate_announcements, truthyStr, hs, dictSet, NSELive.get,
          NSELive._routes, List.lookup]

/-- Claim C1 counterexample: on a 404 (non-2xx) response whose body is
valid JSON, `get` returns the decoded JSON value instead of failing with
`requestFailed` — the source never inspects the HTTP status. -/
theorem get_returns_ok_on_404 :
    (NSELive.get ⟨NSELive.defaultHeaders⟩ (fun _ => HttpResult.resp 404 (some .null))
        "market_status" []).1 = .ok .null ∧
    (NSELive.get ⟨NSELive.defaultHeaders⟩ (fun _ => HttpResult.resp 404 (some .null))
        "market_status" []).1 ≠ .error .requestFailed := by
  refine ⟨rfl, fun hcontra => ?_⟩
  have h1 : (NSELive.get ⟨NSELive.defaultHeaders⟩
      (fun _ => HttpResult.resp 404 (some .null)) "market_status" []).1
      = Except.ok Json.null := rfl
  rw [h1] at hcontra
  exact Except.noConfusion hcontra

/-- Claim C1 (amended): for every route in the table, `get` fails with
`requestFailed` on a network error and with `decodeError` when the body is
not valid JSON; when the body is valid JSON it returns the decoded value
regardless of the HTTP status code — a non-2xx status alone raises
nothing. -/
theorem get_error_classification (s : SessionState) (http : Request → HttpResult)
    (route path : String) (payload : List (String × String))
    (h : NSELive._routes.lookup route = some path) :
    (http ⟨NSELive.base_url ++ path, payload, s.headers, none⟩ = .netErr →
        (NSELive.get s http route payload).1 = .error .requestFailed) ∧
    (∀ st : Nat, http ⟨NSELive.base_url ++ path, payload, s.headers, none⟩ = .resp st none →
        (NSELive.get s http route payload).1 = .error .decodeError) ∧
    (∀ (st : Nat) (j : Json),
        http ⟨NSELive.base_url ++ path, payload, s.headers, none⟩ = .resp st (some j) →
        (NSELive.get s http route payload).1 = .ok j) := by
  refine ⟨fun hr => ?_, fun st hr => ?_, fun st j hr => ?_⟩ <;>
    simp [NSELive.get, h, NSELive.handleResponse, hr]

/-- Witness for C1 (amended): a 404 response with valid JSON body is
returned decoded. -/
theorem get_error_classification_witness :
    NSELive._routes.lookup "market_status" = some "/marketStatus" ∧
    (NSELive.get ⟨NSELive.defaultHeaders⟩ (fun _ => HttpResult.resp 404 (some (.num 7)))
        "market_status" []).1 = .ok (.num 7) :=
  ⟨rfl, (get_error_classification ⟨NSELive.defaultHeaders⟩
      (fun _ => HttpResult.resp 404 (some (.num 7))) "market_status" "/marketStatus" []
      rfl).2.2 404 (.num 7) rfl⟩

/-- Claim C2 counterexample: the class attribute `time_out` is 5, but a
concrete `get` call issues its request with no timeout at all — the
attribute is never passed to the HTTP call, so no distinct timeout error
can arise from the client's requests. -/
theorem get_request_without_timeout_concrete :
    NSELive.time_out = 5 ∧
    ((NSELive.get ⟨NSELive.defaultHeaders⟩ (fun _ => HttpResult.netErr)
        "market_status" []).2.map Request.timeout) = [none] :=
  ⟨rfl, rfl⟩

/-- Claim C2 (amended): `time_out = 5` exists on the client, but every
outbound request — the constructor's landing-page GET and every `get`
request — carries no timeout (`requests` then waits indefinitely). -/
theorem requests_carry_no_timeout (s : SessionState) (http : Request → HttpResult)
    (route : String) (payload : List (String × String)) :
    NSELive.time_out = 5 ∧
    ((NSELive.init http).2.map Request.timeout).all Option.isNone = true ∧
    ((NSELive.get s http route payload).2.map Request.timeout).all Option.isNone = true := by
  refine ⟨rfl, ?_, ?_⟩
  · cases hr : http NSELive.landingRequest <;>
      · simp only [NSELive.init, hr]
        simp [NSELive.landingRequest]
  · cases hr : NSELive._routes.lookup route <;> simp [NSELive.get, hr]

/-- Claim C8 counterexample: the landing-page GET returning HTTP 500 (a
non-2xx status) does not surface as a construction-time error — `__init__`
completes and hands back the session. -/
theorem init_succeeds_on_500 :
    (NSELive.init (fun _ => HttpResult.resp 500 none)).1 = .ok ⟨NSELive.defaultHeaders⟩ :=
  rfl

/-- Claim C8 (amended): construction performs exactly one GET, against the
fixed landing-page URL with the browser-identifying headers installed; a
network-level failure surfaces as a construction-time error, but that is
the only failure mode — the response status is never inspected, so a
non-2xx landing page does not prevent construction. -/
theorem init_landing_page_behaviour (http : Request → HttpResult) :
    (NSELive.init http).2 = [NSELive.landingRequest] ∧
    NSELive.landingRequest.url = NSELive.page_url ∧
    NSELive.landingRequest.headers = NSELive.defaultHeaders ∧
    ((NSELive.init http).1 = .error .requestFailed ↔
      http NSELive.landingRequest = .netErr) := by
  refine ⟨?_, rfl, rfl, ?_⟩ <;>
    cases hr : http NSELive.landingRequest <;> simp [NSELive.init, hr]

/-- Claim C9 counterexample: in the bulk bhavcopy loop, a connection-level
failure (the spec's `RequestFailed`) on the first date aborts the whole
batch — the second date is never attempted and no failed-date list is
produced — because the loop catches only `ReadTimeout`. -/
theorem downloadLoop_aborts_on_connection_error :
    downloadLoop
        (fun d => if d = ⟨2020, 1, 1⟩ then .error .connectionError else .ok ())
        [⟨2020, 1, 1⟩, ⟨2020, 1, 2⟩]
      = .error .connectionError :=
  rfl

/-- Claim C9 (amended): in the bulk bhavcopy loop, a `ReadTimeout` on one
date records that date as failed and continues to the next; provided no
other exception occurs, the batch completes and returns exactly the list of
timed-out dates, which the command reports to the user.  (Any non-timeout
exception still aborts the batch.) -/
theorem downloadLoop_timeout_skip (save : Date → Except DlError Unit)
    (dates : List Date)
    (h : ∀ d ∈ dates, save d ≠ .error .connectionError) :
    downloadLoop save dates
      = .ok (dates.filter (fun d =>
          match save d with
          | .error .readTimeout => true
          | _ => false)) := by
  induction dates with
  | nil => rfl
  | cons d rest ih =>
    have hd := h d (by simp)
    have hrest : ∀ x ∈ rest, save x ≠ .error .connectionError :=
      fun x hx => h x (by simp [hx])
    cases hs : save d with
    | ok u => cases u; simp [downloadLoop, hs, ih hrest, List.filter_cons]
    | error e =>
      cases e with
      | readTimeout => simp [downloadLoop, hs, ih hrest, List.filter_cons]
      | connectionError => exact absurd hs hd

/-- Witness for C9 (amended): both dates time out; both are recorded as
failed and the batch completes. -/
theorem downloadLoop_timeout_skip_witness :
    downloadLoop (fun _ => .error .readTimeout)
        [(⟨2020, 1, 1⟩ : Date), ⟨2020, 1, 2⟩]
      = .ok [⟨2020, 1, 1⟩, ⟨2020, 1, 2⟩] :=
  (downloadLoop_timeout_skip (fun _ => .error .readTimeout)
    [⟨2020, 1, 1⟩, ⟨2020, 1, 2⟩] (by simp)).trans rfl

/-- Claim C4: for a memoized method (modelled from the spec, `live_cache`
not being in the snapshot), starting from a cache with no entry for the
key: the first call invokes upstream once; a second identical call within
the time window invokes upstream zero times and returns the first call's
result; a second call at or after the window's end invokes upstream
again. -/
theorem live_cache_memoization {α β : Type} [DecidableEq α] (upstream : α → β)
    (timeOut t1 t2 : Nat) (cache : CacheState α β) (key : α)
    (hmiss : cacheFind cache key = none) :
    (cachedCall upstream timeOut t1 cache key).2.2 = 1 ∧
    (t2 - t1 < timeOut →
      (cachedCall upstream timeOut t2
          (cachedCall upstream timeOut t1 cache key).2.1 key).2.2 = 0 ∧
      (cachedCall upstream timeOut t2
          (cachedCall upstream timeOut t1 cache key).2.1 key).1
        = (cachedCall upstream timeOut t1 cache key).1) ∧
    (timeOut ≤ t2 - t1 →
      (cachedCall upstream timeOut t2
          (cachedCall upstream timeOut t1 cache key).2.1 key).2.2 = 1) := by
  have hfst : cachedCall upstream timeOut t1 cache key
      = (upstream key, cacheStore cache key (upstream key) t1, 1) := by
    simp [cachedCall, hmiss]
  have hfind : cacheFind (cacheStore cache key (upstream key) t1) key
      = some (upstream key, t1) := by
    simp [cacheStore, cacheFind]
  refine ⟨by rw [hfst], fun hwin => ?_, fun helapsed => ?_⟩
  · rw [hfst]
    exact ⟨by simp [cachedCall, hfind, hwin], by simp [cachedCall, hfind, hwin, hfst]⟩
  · rw [hfst]
    simp [cachedCall, hfind, Nat.not_lt.mpr helapsed]

/-- Witness for C4: a string-keyed cache, window 5, calls at times 10 and
12 (inside the window) — one upstream invocation then zero. -/
theorem live_cache_memoization_witness :
    cacheFind ([] : CacheState String Nat) "quote" = none ∧
    (cachedCall (fun _ => 42) 5 10 ([] : CacheState String Nat) "quote").2.2 = 1 ∧
    (cachedCall (fun _ => 42) 5 12
        (cachedCall (fun _ => 42) 5 10 ([] : CacheState String Nat) "quote").2.1
        "quote").2.2 = 0 := by
  have h := live_cache_memoization (fun _ : String => (42 : Nat)) 5 10 12 [] "quote" rfl
  exact ⟨rfl, h.1, (h.2.1 (by decide)).1⟩

end JugaadData
